import Mathlib

/-!
Shallow embedding of the `sample-tool` repository
(`src/sample_tool/core.py` and `src/sample_tool/cli.py`).

The filesystem is modelled as a map from path strings to entries; a file
entry carries its byte content (as a list of byte values) and a readability
flag.  Python floats are modelled by `Rat`: every arithmetic expression the
code computes (`count / divisor`, `min`) is used only in claims that compare
the code's expression with the spec's identical expression, so exact
rationals are a faithful abstraction.  Python exceptions are modelled by an
error type threaded through `Except`.

A central point of the embedding: `core.py` line 34 calls
`path.is_readable()`, a method that `pathlib.Path` does not provide, so in
Python that attribute lookup raises `AttributeError` whenever it is reached
(i.e. for every path naming an existing regular file).  The embedding keeps
this call as `path_is_readable`, a computation that always fails with
`Err.attributeError`, exactly where the source performs it.
-/

namespace SampleTool

/-- A filesystem entry: a directory (with its `stat` size) or a regular file
with byte content and a readability flag. -/
inductive Entry where
  | dir (dirSize : Nat)
  | file (bytes : List Nat) (readable : Bool)
deriving DecidableEq, Repr

/-- A filesystem: a partial map from path strings to entries. -/
def FS : Type := String → Option Entry

/-- Python exceptions raised (or raisable) by the code under consideration. -/
inductive Err where
  | fileNotFound (msg : String)
  | permissionError (msg : String)
  | valueError (msg : String)
  | attributeError (msg : String)
  | osError (msg : String)
deriving DecidableEq, Repr

instance {ε α : Type} [DecidableEq ε] [DecidableEq α] : DecidableEq (Except ε α) := fun a b =>
  match a, b with
  | .ok x, .ok y => decidable_of_iff (x = y) (by simp)
  | .ok _, .error _ => .isFalse (by simp)
  | .error _, .ok _ => .isFalse (by simp)
  | .error x, .error y => decidable_of_iff (x = y) (by simp)

/-- Python's two-argument `min`: `min(a, b)` is `a` if `a <= b` else `b`. -/
def pymin (a b : Rat) : Rat := if a ≤ b then a else b

/-- `st_size` of an entry: for a regular file, its byte length. -/
def Entry.stSize : Entry → Nat
  | .dir n => n
  | .file b _ => b.length

/-- The message of the `AttributeError` raised by `path.is_readable()`. -/
def attrErrMsg : String := "object has no attribute is_readable"

/-- `path.is_readable()` (core.py line 34): `pathlib.Path` has no method
`is_readable`, so the attribute lookup raises `AttributeError` whenever it
is evaluated, regardless of the path. -/
def path_is_readable : Except Err Bool :=
  .error (.attributeError attrErrMsg)

/-- `_score_by_size` (core.py lines 91-95): `min(1.0, st_size / 1024.0)`;
`path.stat()` fails if the path no longer resolves. -/
def score_by_size (fs : FS) (p : String) : Except Err Rat :=
  match fs p with
  | none => .error (.osError ("stat failed: " ++ p))
  | some e => .ok (pymin 1 ((e.stSize : Rat) / 1024))

/-- One byte of a multi-byte UTF-8 sequence: a continuation byte `0x80..0xBF`. -/
def contByte (b : Nat) : Bool := 128 ≤ b && b < 192

/-- Strict UTF-8 decoding of a byte list to a list of code points, as
performed by Python's `utf-8` codec in its default `strict` mode: rejects
stray continuation bytes, overlong encodings, surrogates and values above
`U+10FFFF`; `none` models `UnicodeDecodeError`. -/
def decodeUtf8 : List Nat → Option (List Nat)
  | [] => some []
  | b :: r =>
    if b < 128 then (decodeUtf8 r).map (b :: ·)
    else if b < 194 then none
    else if b < 224 then
      match r with
      | b1 :: r1 =>
        if contByte b1 then
          (decodeUtf8 r1).map (((b - 192) * 64 + (b1 - 128)) :: ·)
        else none
      | [] => none
    else if b < 240 then
      match r with
      | b1 :: b2 :: r2 =>
        if contByte b1 && contByte b2
            && (decide (b ≠ 224) || decide (160 ≤ b1))
            && (decide (b ≠ 237) || decide (b1 < 160)) then
          (decodeUtf8 r2).map
            (((b - 224) * 4096 + (b1 - 128) * 64 + (b2 - 128)) :: ·)
        else none
      | _ => none
    else if b < 245 then
      match r with
      | b1 :: b2 :: b3 :: r3 =>
        if contByte b1 && contByte b2 && contByte b3
            && (decide (b ≠ 240) || decide (144 ≤ b1))
            && (decide (b ≠ 244) || decide (b1 < 144)) then
          (decodeUtf8 r3).map
            (((b - 240) * 262144 + (b1 - 128) * 4096 + (b2 - 128) * 64
              + (b3 - 128)) :: ·)
        else none
      | _ => none
    else none

/-- Universal-newline translation performed by Python text mode
(`open(path, 'r')`): `\r\n` and lone `\r` both become `\n`. -/
def translateNewlines : List Nat → List Nat
  | [] => []
  | 13 :: 10 :: r => 10 :: translateNewlines r
  | 13 :: r => 10 :: translateNewlines r
  | c :: r => c :: translateNewlines r

/-- Number of lines yielded by iterating a text-mode file
(`sum(1 for _ in f)`): one per `\n`, plus one for a final unterminated
segment. -/
def countLines : List Nat → Nat
  | [] => 0
  | [_] => 1
  | c :: r => (if c = 10 then 1 else 0) + countLines r

/-- The code points on which Python's `str.split()` (no separator) splits:
exactly those for which `str.isspace()` holds. -/
def isPySpace (c : Nat) : Bool :=
  (9 ≤ c && c ≤ 13) || (28 ≤ c && c ≤ 31) || c = 32 || c = 133 || c = 160
    || c = 0x1680 || (0x2000 ≤ c && c ≤ 0x200A) || c = 0x2028 || c = 0x2029
    || c = 0x202F || c = 0x205F || c = 0x3000

/-- Helper for `countWords`: the flag records whether the previous code
point was inside a word. -/
def countWordsAux : List Nat → Bool → Nat
  | [], _ => 0
  | c :: r, inWord =>
    if isPySpace c then countWordsAux r false
    else (if inWord then 0 else 1) + countWordsAux r true

/-- Number of whitespace-delimited tokens of a text, `len(content.split())`. -/
def countWords (t : List Nat) : Nat := countWordsAux t false

/-- `_score_by_lines` (core.py lines 98-107): open the file as UTF-8 text,
count its lines, normalize by 100 and clamp; on `UnicodeDecodeError` fall
back to `_score_by_size`. -/
def score_by_lines (fs : FS) (p : String) : Except Err Rat :=
  match fs p with
  | none => .error (.osError ("No such file: " ++ p))
  | some (.dir _) => .error (.osError ("Is a directory: " ++ p))
  | some (.file bytes readable) =>
    if readable then
      match decodeUtf8 bytes with
      | some text =>
        .ok (pymin 1 ((countLines (translateNewlines text) : Rat) / 100))
      | none => score_by_size fs p
    else .error (.permissionError ("Cannot open: " ++ p))

/-- `_score_by_words` (core.py lines 110-120): open the file as UTF-8 text,
count the whitespace-delimited tokens of its full content, normalize by 500
and clamp; on `UnicodeDecodeError` fall back to `_score_by_size`. -/
def score_by_words (fs : FS) (p : String) : Except Err Rat :=
  match fs p with
  | none => .error (.osError ("No such file: " ++ p))
  | some (.dir _) => .error (.osError ("Is a directory: " ++ p))
  | some (.file bytes readable) =>
    if readable then
      match decodeUtf8 bytes with
      | some text =>
        .ok (pymin 1 ((countWords (translateNewlines text) : Rat) / 500))
      | none => score_by_size fs p
    else .error (.permissionError ("Cannot open: " ++ p))

/-- `process_file` (core.py lines 9-45): validate existence, regular-file
status and readability, then dispatch on the algorithm name.  The
readability check calls `path.is_readable()`, which raises
`AttributeError`, so for an existing regular file the function always
fails there and the dispatch below is unreachable. -/
def process_file (fs : FS) (file_path : String) (algorithm : String) :
    Except Err Rat :=
  match fs file_path with
  | none => .error (.fileNotFound ("File not found: " ++ file_path))
  | some (.dir _) => .error (.valueError ("Not a file: " ++ file_path))
  | some (.file _ _) =>
    match path_is_readable with
    | .error e => .error e
    | .ok readable =>
      if !readable then
        .error (.permissionError ("Cannot read file: " ++ file_path))
      else if algorithm = "size" then score_by_size fs file_path
      else if algorithm = "lines" then score_by_lines fs file_path
      else if algorithm = "words" then score_by_words fs file_path
      else .error (.valueError ("Unsupported algorithm: " ++ algorithm))

/-- Round a rational to the nearest integer, ties to even — the rounding
Python's fixed-point float formatting applies. -/
def roundHalfEven (q : Rat) : Int :=
  let f := q.floor
  let frac := q - f
  if frac < 1/2 then f
  else if 1/2 < frac then f + 1
  else if f % 2 = 0 then f else f + 1

/-- `f"{score:.3f}"`: fixed-point formatting with three decimal places. -/
def fmt3 (q : Rat) : String :=
  let m := roundHalfEven (q * 1000)
  let sign := if m < 0 then "-" else ""
  let a := m.natAbs
  let fp := a % 1000
  sign ++ toString (a / 1000) ++ "."
    ++ (if fp < 10 then "00" else if fp < 100 then "0" else "") ++ toString fp

/-- Whether an exception belongs to the tuple
`(FileNotFoundError, PermissionError, ValueError)` caught by the first
`except` clause of `process_files`; everything else is caught by the
catch-all `except Exception`. -/
def Err.isClassified : Err → Bool
  | .fileNotFound _ | .permissionError _ | .valueError _ => true
  | .attributeError _ | .osError _ => false

/-- The string representation of an exception, as interpolated into the
error notices of `process_files`. -/
def Err.msg : Err → String
  | .fileNotFound m | .permissionError m | .valueError m
  | .attributeError m | .osError m => m

/-- What one call to `process_files` produces: the returned list of
`(path, score)` pairs, the lines printed to standard output and the lines
printed to standard error. -/
structure RunOutput where
  results : List (String × Rat)
  stdout : List String
  stderr : List String
deriving DecidableEq, Repr

/-- `process_files` (core.py lines 48-88): for each path in input order,
optionally print a progress notice (verbose and not quiet), call
`process_file`, on success record the pair and print the result line
(unless quiet), on any exception print an error notice (unless quiet) and
continue. -/
def process_files (fs : FS) :
    List String → Bool → String → Bool → RunOutput
  | [], _, _, _ => ⟨[], [], []⟩
  | f :: rest, quiet, algorithm, verbose =>
    let pre : List String :=
      if verbose && !quiet then ["Processing: " ++ f] else []
    let tail := process_files fs rest quiet algorithm verbose
    match process_file fs f algorithm with
    | .ok score =>
      let line : List String :=
        if !quiet then [f ++ ": " ++ fmt3 score] else []
      ⟨(f, score) :: tail.results, line ++ tail.stdout, pre ++ tail.stderr⟩
    | .error e =>
      let eline : List String :=
        if !quiet then
          [(if e.isClassified then "Error processing "
            else "Unexpected error processing ") ++ f ++ ": " ++ e.msg]
        else []
      ⟨tail.results, tail.stdout, pre ++ eline ++ tail.stderr⟩

/-- Exit-code logic of `main` (cli.py lines 62-96), after the file list has
been resolved: exit 1 when it is empty; otherwise run `process_files` and
exit 0 in quiet mode when at least one result was collected, in normal
mode when every input produced a result, and 1 otherwise. -/
def main_exit (fs : FS) (files : List String) (quiet : Bool)
    (algorithm : String) (verbose : Bool) : Nat :=
  if files.isEmpty then 1
  else
    let results := (process_files fs files quiet algorithm verbose).results
    if quiet then (if results.isEmpty then 1 else 0)
    else if results.length = files.length then 0 else 1

/-- A concrete filesystem used to evaluate the code at specific inputs:
two small text files, a file whose bytes are not valid UTF-8, a multi-line
text file, a multi-word text file, and a directory. -/
def fsEx : FS := fun p =>
  if p = "a.txt" then some (.file [104, 105] true)
  else if p = "b.txt" then some (.file [120] true)
  else if p = "bin.dat" then some (.file [104, 255, 105] true)
  else if p = "lines.txt" then
    some (.file [108, 49, 10, 108, 50, 10, 108, 51] true)
  else if p = "words.txt" then
    some (.file [104, 101, 108, 108, 111, 32, 119, 111, 114, 108, 100,
                 32, 32, 102, 111, 111] true)
  else if p = "subdir" then some (.dir 4096)
  else none

/-- A scoring outcome is "in the unit interval" when, if it returns a
value, that value lies in `[0, 1]`; an exception imposes no constraint. -/
def inUnit : Except Err Rat → Prop
  | .ok v => 0 ≤ v ∧ v ≤ 1
  | .error _ => True

end SampleTool

namespace SampleTool

theorem pymin_eq_min (a b : Rat) : pymin a b = min a b :=
  (min_def a b).symm

theorem pymin_div_unit (n : Nat) (d : Rat) (hd : 0 < d) :
    0 ≤ pymin 1 ((n : Rat) / d) ∧ pymin 1 ((n : Rat) / d) ≤ 1 := by
  rw [pymin_eq_min]
  exact ⟨le_min (by norm_num) (by positivity), min_le_left _ _⟩

theorem score_by_size_unit (fs : FS) (p : String) :
    inUnit (score_by_size fs p) := by
  unfold score_by_size
  cases fs p with
  | none => trivial
  | some e => exact pymin_div_unit e.stSize 1024 (by norm_num)

theorem score_by_lines_unit (fs : FS) (p : String) :
    inUnit (score_by_lines fs p) := by
  unfold score_by_lines
  cases fs p with
  | none => trivial
  | some e =>
    cases e with
    | dir n => trivial
    | file bytes readable =>
      cases readable with
      | false => simp [inUnit]
      | true =>
        cases h : decodeUtf8 bytes with
        | none =>
          simp only [h]
          exact score_by_size_unit fs p
        | some text =>
          simp only [h]
          exact pymin_div_unit _ 100 (by norm_num)

theorem score_by_words_unit (fs : FS) (p : String) :
    inUnit (score_by_words fs p) := by
  unfold score_by_words
  cases fs p with
  | none => trivial
  | some e =>
    cases e with
    | dir n => trivial
    | file bytes readable =>
      cases readable with
      | false => simp [inUnit]
      | true =>
        cases h : decodeUtf8 bytes with
        | none =>
          simp only [h]
          exact score_by_size_unit fs p
        | some text =>
          simp only [h]
          exact pymin_div_unit _ 500 (by norm_num)

theorem process_file_unit (fs : FS) (p a : String) :
    inUnit (process_file fs p a) := by
  unfold process_file
  cases fs p with
  | none => trivial
  | some e =>
    cases e with
    | dir n => trivial
    | file bytes readable => simp [path_is_readable, inUnit]

/-- Claim C1: for every filesystem, every path and every algorithm name,
whenever `process_file` returns a value that value lies in `[0.0, 1.0]`,
and each of the three scoring functions (`_score_by_size`,
`_score_by_lines`, `_score_by_words`) likewise only ever returns values in
`[0.0, 1.0]`: each divides a non-negative count by a fixed positive divisor
and clamps to a ceiling of 1.0. -/
theorem claim_C1_score_in_unit_interval (fs : FS) (p a : String) :
    inUnit (process_file fs p a) ∧ inUnit (score_by_size fs p)
      ∧ inUnit (score_by_lines fs p) ∧ inUnit (score_by_words fs p) :=
  ⟨process_file_unit fs p a, score_by_size_unit fs p,
    score_by_lines_unit fs p, score_by_words_unit fs p⟩

/-- Claim C2: for every path bound to an existing regular file (readable or
not) and every algorithm name, `process_file` fails with the
`AttributeError` produced by the `path.is_readable()` call, before the
dispatch on the algorithm name; in particular it never returns a score and
never raises `FileNotFoundError`, `PermissionError` or `ValueError` under
this precondition. -/
theorem claim_C2_attribute_error_on_files (fs : FS) (p a : String)
    (bytes : List Nat) (rd : Bool) (h : fs p = some (.file bytes rd)) :
    process_file fs p a = .error (.attributeError attrErrMsg) := by
  unfold process_file
  rw [h]
  rfl

/-- Witness for C2 at a concrete input: `fsEx` binds "a.txt" to an existing
readable regular file, and `process_file` on it fails with the
`is_readable` `AttributeError`. -/
theorem claim_C2_witness :
    fsEx "a.txt" = some (.file [104, 105] true)
      ∧ process_file fsEx "a.txt" "lines"
          = .error (.attributeError attrErrMsg) :=
  ⟨rfl, claim_C2_attribute_error_on_files fsEx "a.txt" "lines" [104, 105]
    true rfl⟩

/-- Claim C3 (code bug): on the existing readable 2-byte file "a.txt", the
scoring function `_score_by_size` does compute `min(1.0, 2 / 1024.0)`, but
`process_file` with algorithm "size" never returns it: it fails with the
`AttributeError` raised by `path.is_readable()` during validation. -/
theorem claim_C3_size_score_never_returned :
    score_by_size fsEx "a.txt" = .ok (min 1 ((2 : Rat) / 1024))
      ∧ process_file fsEx "a.txt" "size"
          = .error (.attributeError attrErrMsg) := by
  constructor
  · show Except.ok (pymin 1 (((2 : Nat) : Rat) / 1024)) = _
    rw [pymin_eq_min]
    norm_num
  · rfl

/-- Claim C4 (code bug): "bin.dat" holds bytes that are not valid UTF-8, so
`_score_by_lines` and `_score_by_words` do fall back to the result of
`_score_by_size`; but `process_file` on this file fails with the
`is_readable` `AttributeError` for both algorithms, so the fallback value
is never returned. -/
theorem claim_C4_utf8_fallback_never_returned :
    decodeUtf8 [104, 255, 105] = none
      ∧ score_by_lines fsEx "bin.dat" = score_by_size fsEx "bin.dat"
      ∧ score_by_words fsEx "bin.dat" = score_by_size fsEx "bin.dat"
      ∧ process_file fsEx "bin.dat" "lines"
          = .error (.attributeError attrErrMsg)
      ∧ process_file fsEx "bin.dat" "words"
          = .error (.attributeError attrErrMsg) :=
  ⟨rfl, rfl, rfl, rfl, rfl⟩

/-- Claim C5 (code bug): "lines.txt" decodes to `l1\nl2\nl3`, which has two
newline-terminated lines plus an unterminated final line, counted as 3; the
scoring function `_score_by_lines` does compute `min(1.0, 3 / 100.0)`, but
`process_file` with algorithm "lines" never returns it: it fails with the
`is_readable` `AttributeError`. -/
theorem claim_C5_lines_score_never_returned :
    countLines (translateNewlines [108, 49, 10, 108, 50, 10, 108, 51]) = 3
      ∧ score_by_lines fsEx "lines.txt" = .ok (min 1 ((3 : Rat) / 100))
      ∧ process_file fsEx "lines.txt" "lines"
          = .error (.attributeError attrErrMsg) := by
  refine ⟨rfl, ?_, rfl⟩
  show Except.ok (pymin 1 (((3 : Nat) : Rat) / 100)) = _
  rw [pymin_eq_min]
  norm_num

/-- Claim C6 (code bug): "words.txt" decodes to `hello world  foo`, which
has 3 whitespace-delimited tokens; the scoring function `_score_by_words`
does compute `min(1.0, 3 / 500.0)`, but `process_file` with algorithm
"words" never returns it: it fails with the `is_readable`
`AttributeError`. -/
theorem claim_C6_words_score_never_returned :
    countWords (translateNewlines [104, 101, 108, 108, 111, 32, 119, 111,
        114, 108, 100, 32, 32, 102, 111, 111]) = 3
      ∧ score_by_words fsEx "words.txt" = .ok (min 1 ((3 : Rat) / 500))
      ∧ process_file fsEx "words.txt" "words"
          = .error (.attributeError attrErrMsg) := by
  refine ⟨rfl, ?_, rfl⟩
  show Except.ok (pymin 1 (((3 : Nat) : Rat) / 500)) = _
  rw [pymin_eq_min]
  norm_num

/-- Claim C7 (code bug): with the unrecognized algorithm name "invalid",
`process_file` does not raise the "Unsupported algorithm" `ValueError`: on
the existing readable file "a.txt" it fails first with the `is_readable`
`AttributeError`, and on a nonexistent path it fails first with
`FileNotFoundError`; the `else` branch raising `ValueError` for a bad
algorithm is unreachable. -/
theorem claim_C7_bad_algorithm_not_value_error :
    process_file fsEx "a.txt" "invalid"
        = .error (.attributeError attrErrMsg)
      ∧ process_file fsEx "missing.txt" "invalid"
          = .error (.fileNotFound "File not found: missing.txt") :=
  ⟨rfl, rfl⟩

/-- Claim C8 (code bug): on the batch `[valid1, missing, valid2]` with two
existing readable files, `process_files` returns no results at all (not
the claimed 2): every existing file fails inside `process_file` with the
`is_readable` `AttributeError` and is skipped by the catch-all handler.
The empty batch does return the empty list. -/
theorem claim_C8_batch_returns_no_results :
    (process_files fsEx ["a.txt", "missing.txt", "b.txt"]
        false "size" false).results = []
      ∧ (process_files fsEx ([] : List String) false "size" false).results
          = [] :=
  ⟨rfl, rfl⟩

/-- Claim C9: in quiet mode `process_files` prints nothing at all: no
result lines on standard output, and no progress or error notices on
standard error, whatever the filesystem, the paths, the algorithm and the
verbose flag. -/
theorem claim_C9_quiet_suppresses_all_output (fs : FS) (files : List String)
    (a : String) (verbose : Bool) :
    (process_files fs files true a verbose).stdout = []
      ∧ (process_files fs files true a verbose).stderr = [] := by
  induction files with
  | nil => exact ⟨rfl, rfl⟩
  | cons f rest ih =>
    unfold process_files
    cases process_file fs f a with
    | ok s => simpa using ih
    | error e => simpa using ih

/-- Claim C10: the Front End's exit code is always 0 or 1, and it is 0
exactly when the file list is nonempty and either quiet mode is set and
`process_files` returned at least one result, or quiet mode is not set and
the result count equals the input file count; in every other case —
including when no files were resolved at all — it is 1. -/
theorem claim_C10_exit_code_mapping (fs : FS) (files : List String)
    (quiet : Bool) (a : String) (verbose : Bool) :
    (main_exit fs files quiet a verbose = 0
        ∨ main_exit fs files quiet a verbose = 1)
      ∧ (main_exit fs files quiet a verbose = 0
          ↔ files.isEmpty = false
            ∧ ((quiet = true
                  ∧ (process_files fs files quiet a verbose).results.isEmpty
                      = false)
                ∨ (quiet = false
                  ∧ (process_files fs files quiet a verbose).results.length
                      = files.length))) := by
  unfold main_exit
  cases hfe : files.isEmpty with
  | true => simp
  | false =>
    cases quiet with
    | true =>
      cases hre : (process_files fs files true a verbose).results.isEmpty
        with
      | true => simp [hre]
      | false => simp [hre]
    | false =>
      by_cases hlen : (process_files fs files false a verbose).results.length
          = files.length
      · simp [hlen]
      · simp [hlen]

end SampleTool
